import Mathlib

/-!
Verification development for the geospatial dashboard script src/app.py of the
repository Analissoares/meu-repositorio.

The script loads two GeoJSON datasets (neighborhood polygons and bank-branch
points), reprojects both to EPSG 4326, counts points per polygon with a spatial
join, renders a choropleth map with marker/heatmap layers, and offers a CSV
download of the per-polygon counts.

The embedding below models:
  - geometries: polygon features as axis-aligned rectangles (an executable
    instance of the polygon geometries the script manipulates), point-layer
    entries as an inductive covering simple points, empty geometries,
    non-point geometries and null entries; coordinates are rationals standing
    for the floating point coordinates of the data;
  - the containment predicate of the geometry library: a polygon contains a
    point exactly when the point lies in the polygon interior (a boundary point
    is not contained); an empty geometry is contained in nothing;
  - lines 56-58 of app.py: gpd.sjoin(bairros, df_sb, how=left,
    predicate=contains), groupby(index).size(), reindex(index, fill_value=0);
  - lines 26-37: the loader with its catch-all error handler;
  - lines 39-48: the render cycle halting when a load returns None;
  - lines 52-53: to_crs(epsg=4326), parametrised by the reprojection function
    of the external library;
  - lines 75-92: the branca LinearColormap and the folium style function;
  - lines 116-129: the marker/heatmap location list and the heatmap guard;
  - lines 149-153: the CSV conversion (pandas to_csv with minimal quoting,
    UTF-8 encoded).
-/

namespace App

/-- Polygon geometry of a neighborhood feature, modelled as an axis-aligned
rectangle with corners (x1, y1) and (x2, y2). The containment predicate of the
geometry library holds for a point exactly when the point is interior. -/
structure Rect where
  x1 : ℚ
  y1 : ℚ
  x2 : ℚ
  y2 : ℚ
deriving DecidableEq

/-- A geometry appearing in the point layer df_sb: a simple point with x
(longitude) and y (latitude), an empty point, a non-point geometry (modelled
as a line segment), or an empty non-point geometry. -/
inductive Geom where
  | pt (x y : ℚ)
  | emptyPt
  | line (lx1 ly1 lx2 ly2 : ℚ)
  | emptyLine
deriving DecidableEq

/-- The is_empty flag of a geometry. -/
def Geom.is_empty : Geom → Bool
  | .emptyPt => true
  | .emptyLine => true
  | .pt _ _ => false
  | .line _ _ _ _ => false

/-- The geom_type string of a geometry. -/
def Geom.geom_type : Geom → String
  | .pt _ _ => "Point"
  | .emptyPt => "Point"
  | .line _ _ _ _ => "LineString"
  | .emptyLine => "LineString"

/-- Interior containment of a coordinate pair in a rectangle: the contains
predicate of the geometry library for a polygon and a point. -/
def Rect.containsPoint (r : Rect) (x y : ℚ) : Bool :=
  decide (r.x1 < x) && decide (x < r.x2) && decide (r.y1 < y) && decide (y < r.y2)

/-- The contains predicate of the geometry library between a polygon and a
point-layer geometry. An empty geometry is never contained; a segment is
modelled as contained when both endpoints are interior. -/
def Rect.containsGeom (r : Rect) : Geom → Bool
  | .pt x y => r.containsPoint x y
  | .emptyPt => false
  | .line ax ay bx cy => r.containsPoint ax ay && r.containsPoint bx cy
  | .emptyLine => false

/-- Containment lifted to a possibly-null geometry column entry: a null
geometry matches no polygon in the spatial join. -/
def containsOpt (r : Rect) : Option Geom → Bool
  | none => false
  | some g => r.containsGeom g

/-- Indices of the rows of the point layer whose geometry the polygon
contains: the matches the spatial join produces for one left row. -/
def matchIdx (pts : List (Option Geom)) (r : Rect) : List Nat :=
  (List.range pts.length).filter fun j => containsOpt r (pts.getD j none)

/-- Line 56 of app.py: gpd.sjoin(bairros_data, df_sb, how=left,
predicate=contains). One output row per matching (polygon, point) pair; a
polygon with no match is kept as a single row whose right index is null
(the left join keeps every left row). The first component of each row is the
left (polygon) index, the second the matched right (point) index. -/
def sjoin_left_contains (polys : List Rect) (pts : List (Option Geom)) :
    List (Nat × Option Nat) :=
  (List.range polys.length).flatMap fun i =>
    let ms := matchIdx pts (polys.getD i ⟨0, 0, 0, 0⟩)
    if ms.isEmpty then [(i, none)] else ms.map fun j => (i, some j)

/-- Line 57 of app.py: join.groupby(join.index).size() evaluated at index i,
the number of join rows carrying left index i. -/
def groupby_size (rows : List (Nat × Option Nat)) (i : Nat) : Nat :=
  (rows.filter fun row => row.1 == i).length

/-- Line 58 of app.py: counts.reindex(bairros_data.index, fill_value=0) — one
value per polygon index, the group size when the index occurs among the join
rows and the fill value 0 otherwise. -/
def reindex_counts (rows : List (Nat × Option Nat)) (n : Nat) : List Nat :=
  (List.range n).map fun i =>
    if (rows.map Prod.fst).contains i then groupby_size rows i else 0

/-- Lines 56-58 of app.py composed: the sistemas_bancarios column the script
attaches to the polygon frame. -/
def sistemas_bancarios_counts (polys : List Rect) (pts : List (Option Geom)) :
    List Nat :=
  reindex_counts (sjoin_left_contains polys pts) polys.length

/-- Specification-side count: the number of point-layer geometries the polygon
contains (empty and null geometries never satisfy the containment predicate,
hence are excluded). -/
def containedPointCount (r : Rect) (pts : List (Option Geom)) : Nat :=
  (pts.filter fun og => containsOpt r og).length

/-- Whether two rectangles have disjoint closed extents (no common point at
all, interior or boundary). -/
def Rect.disjointWith (r s : Rect) : Bool :=
  decide (r.x2 ≤ s.x1) || decide (s.x2 ≤ r.x1) ||
  decide (r.y2 ≤ s.y1) || decide (s.y2 ≤ r.y1)

/-- A polygon feature row of the bairros frame: the NOME attribute, the
geometry, and the remaining attribute columns. -/
structure BairroRow where
  nome : String
  geometry : Rect
  attrs : List (String × String)
deriving DecidableEq

/-- A polygon feature row after line 58 of app.py: the original row plus the
derived sistemas_bancarios count column. -/
structure AggRow extends BairroRow where
  sistemas_bancarios : Nat
deriving DecidableEq

/-- Lines 56-58 of app.py at frame level: the polygon frame with the
sistemas_bancarios column attached; every other column is carried over from
the input rows. -/
def aggregateFrame (b : List BairroRow) (pts : List (Option Geom)) :
    List AggRow :=
  (b.zip (sistemas_bancarios_counts (b.map fun r => r.geometry) pts)).map
    fun rc => { toBairroRow := rc.1, sistemas_bancarios := rc.2 }

/-!  The remote dataset loader, lines 26-37 of app.py.  -/

/-- The body of an HTTP response as seen by gpd.read_file: either a payload
that parses into data, or a malformed payload on which the parser raises. -/
inductive Payload (α : Type) where
  | wellFormed (data : α)
  | malformed (msg : String)

/-- The outcome of requests.get(url): a raised network error, or a response
with an HTTP status code and a body. -/
inductive FetchOutcome (α : Type) where
  | netError (msg : String)
  | response (status : Nat) (body : Payload α)

/-- Lines 26-37 of app.py. The try block fetches the URL,
raise_for_status raises on an HTTP error status (4xx or 5xx), and
gpd.read_file parses the body. The catch-all except handler displays two
error messages — the exception text and the attempted URL — and returns
None. The first component is the returned value, the second the list of
error messages displayed. -/
def load_geojson_from_github {α : Type} (url : String) (resp : FetchOutcome α) :
    Option α × List String :=
  match resp with
  | .netError m =>
      (none, ["Erro ao carregar o arquivo: " ++ m, "URL tentada: " ++ url])
  | .response status body =>
      if 400 ≤ status then
        (none, ["Erro ao carregar o arquivo: HTTPError " ++ toString status,
                "URL tentada: " ++ url])
      else
        match body with
        | .wellFormed d => (some d, [])
        | .malformed m =>
            (none, ["Erro ao carregar o arquivo: " ++ m, "URL tentada: " ++ url])

/-- The two failure kinds of the loader contract named by the spec. -/
inductive FailKind where
  | fetch
  | parse
deriving DecidableEq

/-- Line 22 of app.py. -/
def GITHUB_RAW_URL : String :=
  "https://raw.githubusercontent.com/Analissoares/meu-repositorio/main/"

/-- Line 23 of app.py. -/
def BAIRROS_URL : String := GITHUB_RAW_URL ++ "dados/bairros.geojson"

/-- Line 24 of app.py. -/
def SB_URL : String := GITHUB_RAW_URL ++ "dados/dados_SB.geojson"

/-!  The coordinate normalizer, lines 52-53 of app.py.  -/

/-- The bairros GeoDataFrame with its coordinate reference system (an EPSG
code) and its rows. -/
structure BairrosGdf where
  crs : Nat
  rows : List BairroRow

/-- The df_sb GeoDataFrame with its coordinate reference system and its
geometry column. -/
structure PointsGdf where
  crs : Nat
  geoms : List (Option Geom)

/-- Reprojecting a rectangle: the external reprojection function T maps a
coordinate pair from the source system to EPSG 4326, and is applied to every
vertex. -/
def Rect.reproject (T : Nat → ℚ × ℚ → ℚ × ℚ) (c : Nat) (r : Rect) : Rect :=
  let p := T c (r.x1, r.y1)
  let q := T c (r.x2, r.y2)
  ⟨p.1, p.2, q.1, q.2⟩

/-- Reprojecting a point-layer geometry vertex by vertex. -/
def Geom.reproject (T : Nat → ℚ × ℚ → ℚ × ℚ) (c : Nat) : Geom → Geom
  | .pt x y => let p := T c (x, y); .pt p.1 p.2
  | .emptyPt => .emptyPt
  | .line ax ay bx cy =>
      let p := T c (ax, ay)
      let q := T c (bx, cy)
      .line p.1 p.2 q.1 q.2
  | .emptyLine => .emptyLine

/-- Line 52 of app.py: bairros_data.to_crs(epsg=4326), parametrised by the
reprojection function of the external library. -/
def BairrosGdf.to_crs (T : Nat → ℚ × ℚ → ℚ × ℚ) (g : BairrosGdf) : BairrosGdf :=
  ⟨4326, g.rows.map fun r => { r with geometry := r.geometry.reproject T g.crs }⟩

/-- Line 53 of app.py: df_sb.to_crs(epsg=4326). -/
def PointsGdf.to_crs (T : Nat → ℚ × ℚ → ℚ × ℚ) (g : PointsGdf) : PointsGdf :=
  ⟨4326, g.geoms.map fun og => og.map (Geom.reproject T g.crs)⟩

/-- The vertex coordinates of a rectangle geometry. -/
def Rect.corners (r : Rect) : List (ℚ × ℚ) :=
  [(r.x1, r.y1), (r.x2, r.y2)]

/-- The vertex coordinates of a point-layer geometry. -/
def Geom.coords : Geom → List (ℚ × ℚ)
  | .pt x y => [(x, y)]
  | .emptyPt => []
  | .line ax ay bx cy => [(ax, ay), (bx, cy)]
  | .emptyLine => []

/-- All vertex coordinates occurring in a bairros frame. -/
def BairrosGdf.allCoords (g : BairrosGdf) : List (ℚ × ℚ) :=
  g.rows.flatMap fun r => r.geometry.corners

/-- All vertex coordinates occurring in a points frame. -/
def PointsGdf.allCoords (g : PointsGdf) : List (ℚ × ℚ) :=
  g.geoms.flatMap fun og =>
    match og with
    | none => []
    | some gg => gg.coords

/-- A coordinate pair lies within the valid longitude/latitude bounds of the
canonical geographic system: first component within plus or minus 180 degrees
of longitude, second within plus or minus 90 degrees of latitude. -/
def inLonLatBounds (p : ℚ × ℚ) : Prop :=
  -180 ≤ p.1 ∧ p.1 ≤ 180 ∧ -90 ≤ p.2 ∧ p.2 ≤ 90

instance (p : ℚ × ℚ) : Decidable (inLonLatBounds p) := by
  unfold inLonLatBounds; infer_instance

/-- Lines 51-58 of app.py: the intermediate state after the processing
spinner — both frames reprojected to EPSG 4326 and the aggregation computed
from the reprojected frames. -/
structure ProcessedData where
  bairros : BairrosGdf
  df_sb : PointsGdf
  agg : List AggRow

/-- Lines 51-58 of app.py: reproject both frames, then join and count. The
spatial join is evaluated on the two reprojected frames and on nothing else. -/
def processData (T : Nat → ℚ × ℚ → ℚ × ℚ) (bairros_data : BairrosGdf)
    (df_sb : PointsGdf) : ProcessedData :=
  let b := bairros_data.to_crs T
  let s := df_sb.to_crs T
  { bairros := b, df_sb := s, agg := aggregateFrame b.rows s.geoms }

/-!  The marker and heatmap layers, lines 116-129 of app.py.  -/

/-- The filter condition of the list comprehension on lines 116-120: the
geometry is truthy (a null entry is falsy, and the geometry library makes an
empty geometry falsy), its geom_type is Point, and it is not empty. -/
def keepLocation : Option Geom → Bool
  | none => false
  | some g => !g.is_empty && (g.geom_type == "Point") && !g.is_empty

/-- The projection [geom.y, geom.x] of the comprehension. The y and x
accessors are only well defined on simple points; the remaining branches
model entries the filter never selects and return a dummy coordinate. -/
def locationYX : Option Geom → ℚ × ℚ
  | some (.pt x y) => (y, x)
  | some .emptyPt => (0, 0)
  | some (.line ax ay _ _) => (ay, ax)
  | some .emptyLine => (0, 0)
  | none => (0, 0)

/-- Lines 116-120 of app.py: the location list fed to the marker cluster and
the heatmap. -/
def locations (geoms : List (Option Geom)) : List (ℚ × ℚ) :=
  (geoms.filter keepLocation).map locationYX

/-- Specification-side characterization: the latitude/longitude pair of each
non-null, simple-point, non-empty geometry, and nothing else. -/
def ptLocation : Option Geom → Option (ℚ × ℚ)
  | some (.pt x y) => some (y, x)
  | _ => none

/-- Lines 122-126 of app.py: the marker cluster receives every location when
show_clusters is set and nothing otherwise. -/
def clusterMarkers (show_clusters : Bool) (locs : List (ℚ × ℚ)) :
    List (ℚ × ℚ) :=
  if show_clusters then locs else []

/-- Lines 128-129 of app.py: the heatmap layer is built only when
show_heatmap is set and the location list is truthy, that is, non-empty. -/
def heatMapLayer (show_heatmap : Bool) (locs : List (ℚ × ℚ)) :
    Option (List (ℚ × ℚ)) :=
  if show_heatmap && !locs.isEmpty then some locs else none

/-!  The CSV export, lines 149-153 of app.py.  -/

/-- Whether a string cell needs CSV quoting: it contains a delimiter, a
quote, or a line break (the minimal-quoting rule of the CSV writer). -/
def needsQuoting (s : String) : Bool :=
  s.data.any fun ch => ch == ',' || ch == '"' || ch == '\n' || ch == '\r'

/-- Doubling every quote character of a string, the CSV escape. -/
def escapeQuotes (s : String) : String :=
  s.foldl (fun acc ch => if ch == '"' then acc ++ "\"\"" else acc.push ch) ""

/-- Serialization of one string cell: quoted with escaped quotes when
needed, verbatim otherwise. -/
def csvField (s : String) : String :=
  if needsQuoting s then "\"" ++ escapeQuotes s ++ "\"" else s

/-- A cell of the exported frame: the NOME column holds strings, the
sistemas_bancarios column holds integers. -/
inductive Cell where
  | str (s : String)
  | num (n : Nat)

/-- Serialization of one cell: numeric cells are written in decimal and never
quoted, string cells follow the minimal-quoting rule. -/
def Cell.out : Cell → String
  | .str s => csvField s
  | .num n => toString n

/-- One CSV record: the cells joined by commas. -/
def csvLine : List Cell → String
  | [] => ""
  | [c] => c.out
  | c :: cs => c.out ++ "," ++ csvLine cs

/-- The CSV writer: the header record followed by one record per row, each
terminated by a newline. -/
def to_csv (header : List Cell) (rows : List (List Cell)) : String :=
  csvLine header ++ "\n" ++ String.join (rows.map fun row => csvLine row ++ "\n")

/-- Lines 149-153 of app.py: convert_df on the frame
bairros_data with the NOME and sistemas_bancarios columns selected —
df.to_csv(index=False).encode(utf-8). -/
def convert_df (rows : List (String × Nat)) : List UInt8 :=
  (to_csv [Cell.str "NOME", Cell.str "sistemas_bancarios"]
    (rows.map fun r => [Cell.str r.1, Cell.num r.2])).toUTF8.toList

/-- The byte sequence the spec describes, written from the spec words: the
UTF-8 encoding of the header row NOME,sistemas_bancarios followed by one row
per polygon in input order, name and count verbatim. -/
def specCsvBytes (rows : List (String × Nat)) : List UInt8 :=
  ("NOME,sistemas_bancarios\n" ++
    String.join (rows.map fun r => r.1 ++ "," ++ toString r.2 ++ "\n")).toUTF8.toList

/-!  The choropleth styler, lines 75-92 of app.py.  -/

/-- A color as an RGBA tuple of floats between 0 and 1, modelled as
rationals. -/
abbrev Color := ℚ × ℚ × ℚ × ℚ

/-- The color of a hex triple: each channel divided by 255, alpha 1. -/
def hexColor (r g b : ℕ) : Color :=
  ((r : ℚ) / 255, (g : ℚ) / 255, (b : ℚ) / 255, 1)

/-- The branca LinearColormap state: the index (the thresholds) and the
parsed colors. -/
structure LinearColormap where
  index : List ℚ
  colors : List Color
  caption : String

/-- The branca LinearColormap constructor without an explicit index: the
thresholds interpolate linearly from vmin to vmax. The script instantiates it
with three colors. -/
def LinearColormap.make (cols : List Color) (vmin vmax : ℚ) (cap : String) :
    LinearColormap :=
  { index := (List.range cols.length).map fun i =>
      vmin + (vmax - vmin) * (i : ℚ) / ((cols.length : ℚ) - 1),
    colors := cols,
    caption := cap }

/-- Channelwise linear interpolation between two colors. -/
def lerpColor (p : ℚ) (ca cb : Color) : Color :=
  ((1 - p) * ca.1 + p * cb.1,
   (1 - p) * ca.2.1 + p * cb.2.1,
   (1 - p) * ca.2.2.1 + p * cb.2.2.1,
   (1 - p) * ca.2.2.2 + p * cb.2.2.2)

/-- The branca rgba_floats_tuple lookup: clamp to the first color at or below
the first threshold, to the last color at or beyond the last threshold, and
interpolate within the bracketing pair otherwise. The none results model the
places where the Python original would raise: an empty index or color list,
an out-of-range list access, or a zero denominator in the interpolation. -/
def rgba_floats_tuple (cmap : LinearColormap) (x : ℚ) : Option Color :=
  match cmap.index, cmap.colors with
  | [], _ => none
  | _ :: _, [] => none
  | i0 :: irest, c0 :: crest =>
    if x ≤ i0 then some c0
    else if ((i0 :: irest).getLast?.getD i0) ≤ x then
      some ((c0 :: crest).getLast?.getD c0)
    else
      let k := ((i0 :: irest).filter fun u => decide (u < x)).length
      match (i0 :: irest).get? (k - 1), (i0 :: irest).get? k,
            (c0 :: crest).get? (k - 1), (c0 :: crest).get? k with
      | some a, some b, some ca, some cb =>
          if b - a = 0 then none
          else some (lerpColor ((x - a) / (b - a)) ca cb)
      | _, _, _, _ => none

/-- Lines 77-82 of app.py: the colormap over the three fixed colors, with
vmin and vmax the observed minimum and maximum counts. -/
def appColormap (vmin vmax : ℚ) : LinearColormap :=
  LinearColormap.make
    [hexColor 254 249 239, hexColor 243 217 177, hexColor 216 176 122]
    vmin vmax "Quantidade de Sistemas Bancários"

/-- The pandas Series minimum of the count column (the script only evaluates
it on a non-empty frame). -/
def seriesMinNat : List Nat → Nat
  | [] => 0
  | x :: xs => xs.foldl Nat.min x

/-- The pandas Series maximum of the count column. -/
def seriesMaxNat : List Nat → Nat
  | [] => 0
  | x :: xs => xs.foldl Nat.max x

/-- The style dictionary returned by style_function on lines 85-92. -/
structure Style where
  fillColor : Option Color
  color : String
  weight : ℚ
  fillOpacity : ℚ

/-- Lines 85-92 of app.py: the folium style function maps the
sistemas_bancarios value of the feature through the colormap and attaches the
fixed stroke and opacity. -/
def style_function (cmap : LinearColormap) (feature : AggRow) : Style :=
  { fillColor := rgba_floats_tuple cmap (feature.sistemas_bancarios : ℚ),
    color := "black",
    weight := 3 / 2,
    fillOpacity := 7 / 10 }

/-!  The render cycle, lines 39-159 of app.py.  -/

/-- The sidebar configuration, lines 61-69 of app.py. -/
structure Config where
  tile_layer : String
  show_heatmap : Bool
  show_clusters : Bool

/-- Everything a successful render cycle produces. -/
structure PageOutput where
  processed : ProcessedData
  markerLocations : List (ℚ × ℚ)
  heatmapLayer : Option (List (ℚ × ℚ))
  csv : List UInt8

/-- The outcome of one render cycle: either halted by st.stop after the error
messages were displayed, or a fully rendered page. -/
inductive RenderOutcome where
  | halted (errors : List String)
  | rendered (page : PageOutput)

/-- The styling and export stages, lines 85-159 of app.py, applied to the
aggregated frame: the styles, the CSV bytes, and the frame as it stands
afterwards — the source assigns nothing to the frame after line 58, so the
stages return it unchanged. -/
def renderStages (cmap : LinearColormap) (agg : List AggRow) :
    List Style × List UInt8 × List AggRow :=
  (agg.map (style_function cmap),
   convert_df (agg.map fun r => (r.nome, r.sistemas_bancarios)),
   agg)

/-- Lines 39-159 of app.py: load both datasets (displaying error messages on
failure), stop when either returned None, otherwise reproject, aggregate and
render. -/
def runCycle (T : Nat → ℚ × ℚ → ℚ × ℚ) (cfg : Config)
    (bResp : FetchOutcome BairrosGdf) (sResp : FetchOutcome PointsGdf) :
    RenderOutcome :=
  let lb := load_geojson_from_github BAIRROS_URL bResp
  let ls := load_geojson_from_github SB_URL sResp
  match lb, ls with
  | (none, e1), (_, e2) => .halted (e1 ++ e2)
  | (some _, e1), (none, e2) => .halted (e1 ++ e2)
  | (some bd, _), (some sd, _) =>
      let p := processData T bd sd
      let locs := locations p.df_sb.geoms
      .rendered
        { processed := p,
          markerLocations := clusterMarkers cfg.show_clusters locs,
          heatmapLayer := heatMapLayer cfg.show_heatmap locs,
          csv := convert_df (p.agg.map fun r => (r.nome, r.sistemas_bancarios)) }

/-!  Theorems.  -/

/-- Claim C1: the claim states that a polygon containing zero points of the
point collection receives a count of exactly 0. The code is wrong there: the
left spatial join keeps a zero-match polygon as one row whose right index is
null, and groupby(index).size() counts that row, so the polygon receives
count 1; the fill value 0 of the reindex on line 58 is unreachable. This
theorem evaluates the embedded pipeline at the failing input: one polygon,
the unit square scaled to (0,0)-(2,2), and one point at (5,5) outside it. The
pipeline yields the count list [1] although the polygon contains zero
points. -/
theorem C1_zero_match_polygon_gets_count_one :
    sistemas_bancarios_counts [⟨0, 0, 2, 2⟩] [some (Geom.pt 5 5)] = [1] ∧
    containedPointCount ⟨0, 0, 2, 2⟩ [some (Geom.pt 5 5)] = 0 := by
  decide

/-- Claim C2: the claim states that the aggregated count of every polygon
equals the number of point geometries it contains. The code is wrong for a
polygon containing zero points: at the failing input below the first polygon
contains no point and the second contains the single point, yet the pipeline
yields [1, 1] where the containment counts are 0 and 1. -/
theorem C2_count_differs_from_contained_points :
    sistemas_bancarios_counts [⟨10, 10, 12, 12⟩, ⟨0, 0, 4, 4⟩]
        [some (Geom.pt 1 1)] = [1, 1] ∧
    containedPointCount ⟨10, 10, 12, 12⟩ [some (Geom.pt 1 1)] = 0 ∧
    containedPointCount ⟨0, 0, 4, 4⟩ [some (Geom.pt 1 1)] = 1 := by
  decide

/-- Claim C3: the claim states that over pairwise disjoint polygons the sum
of the counts equals the number of points falling inside at least one
polygon. The code is wrong there: at the failing input below the two polygons
are disjoint and exactly one of the two points lies inside a polygon, yet the
counts sum to 2 because the unmatched polygon contributes a spurious 1. -/
theorem C3_sum_counts_unmatched_polygons :
    Rect.disjointWith ⟨0, 0, 2, 2⟩ ⟨10, 10, 12, 12⟩ = true ∧
    (sistemas_bancarios_counts [⟨0, 0, 2, 2⟩, ⟨10, 10, 12, 12⟩]
        [some (Geom.pt 1 1), some (Geom.pt 20 20)]).sum = 2 ∧
    (([some (Geom.pt 1 1), some (Geom.pt 20 20)] : List (Option Geom)).filter
        fun og => containsOpt ⟨0, 0, 2, 2⟩ og ||
          containsOpt ⟨10, 10, 12, 12⟩ og).length = 1 := by
  decide

/-- When the loader returns None, one of the error messages it displayed
names the attempted URL. -/
theorem load_failure_displays_url {α : Type} (url : String)
    (resp : FetchOutcome α)
    (h : (load_geojson_from_github url resp).1 = none) :
    ("URL tentada: " ++ url) ∈ (load_geojson_from_github url resp).2 := by
  cases resp with
  | netError m => simp [load_geojson_from_github]
  | response status body =>
    by_cases hs : 400 ≤ status
    · simp [load_geojson_from_github, hs]
    · cases body with
      | wellFormed d => simp [load_geojson_from_github, hs] at h
      | malformed m => simp [load_geojson_from_github, hs]

/-- Claim C4: in every render cycle in which loading either remote dataset
fails, the cycle halts with a visible error message naming the failed URL —
for each dataset whose load failed, the message carrying that very URL is
among the displayed errors — and no rendered page, hence no map and no CSV
export, is produced; the halt happens before the aggregation, which only
exists inside the rendered outcome. -/
theorem C4_loader_failure_halts (T : Nat → ℚ × ℚ → ℚ × ℚ) (cfg : Config)
    (bResp : FetchOutcome BairrosGdf) (sResp : FetchOutcome PointsGdf)
    (h : (load_geojson_from_github BAIRROS_URL bResp).1 = none ∨
         (load_geojson_from_github SB_URL sResp).1 = none) :
    ∃ errs, runCycle T cfg bResp sResp = RenderOutcome.halted errs ∧
      ((load_geojson_from_github BAIRROS_URL bResp).1 = none →
        ("URL tentada: " ++ BAIRROS_URL) ∈ errs) ∧
      ((load_geojson_from_github SB_URL sResp).1 = none →
        ("URL tentada: " ++ SB_URL) ∈ errs) ∧
      ∀ page, runCycle T cfg bResp sResp ≠ RenderOutcome.rendered page := by
  have hb2 := load_failure_displays_url BAIRROS_URL bResp
  have hs2 := load_failure_displays_url SB_URL sResp
  rcases hb : load_geojson_from_github BAIRROS_URL bResp with ⟨ob, eb⟩
  rcases hs : load_geojson_from_github SB_URL sResp with ⟨os, es⟩
  rw [hb] at hb2
  rw [hs] at hs2
  cases ob with
  | none =>
    cases os with
    | none =>
      refine ⟨eb ++ es, ?_, ?_, ?_, ?_⟩
      · simp [runCycle, hb, hs]
      · intro _
        exact List.mem_append_left _ (hb2 rfl)
      · intro _
        exact List.mem_append_right _ (hs2 rfl)
      · intro page
        simp [runCycle, hb, hs]
    | some sd =>
      refine ⟨eb ++ es, ?_, ?_, ?_, ?_⟩
      · simp [runCycle, hb, hs]
      · intro _
        exact List.mem_append_left _ (hb2 rfl)
      · intro hcontra
        simp at hcontra
      · intro page
        simp [runCycle, hb, hs]
  | some bd =>
    cases os with
    | none =>
      refine ⟨eb ++ es, ?_, ?_, ?_, ?_⟩
      · simp [runCycle, hb, hs]
      · intro hcontra
        simp at hcontra
      · intro _
        exact List.mem_append_right _ (hs2 rfl)
      · intro page
        simp [runCycle, hb, hs]
    | some sd =>
      rw [hb, hs] at h
      simp at h

/-- Claim C6 counterexample: the claim states that the two loader failure
kinds — fetch failures and parse failures — are distinguishable to the
caller. They are not: the catch-all handler returns None for both, so no
classification of the returned value can tell a network error apart from a
malformed payload. -/
theorem C6_failures_indistinguishable :
    ¬ ∃ classify : Option PointsGdf → FailKind,
        classify (load_geojson_from_github SB_URL
          (FetchOutcome.netError "connection error")).1 = FailKind.fetch ∧
        classify (load_geojson_from_github SB_URL
          (FetchOutcome.response 200 (Payload.malformed "not a geojson"))).1 =
            FailKind.parse := by
  rintro ⟨f, h1, h2⟩
  have e1 : (load_geojson_from_github SB_URL
      (FetchOutcome.netError "connection error") :
        Option PointsGdf × List String).1 = none := rfl
  have e2 : (load_geojson_from_github SB_URL
      (FetchOutcome.response 200 (Payload.malformed "not a geojson")) :
        Option PointsGdf × List String).1 = none := by
    simp [load_geojson_from_github]
  rw [e1] at h1
  rw [e2] at h2
  rw [h1] at h2
  exact absurd h2 (by decide)

/-- Claim C6 as amended: for every URL and every fetch outcome, the loader
either returns the parsed collection with no error displayed, or returns
None after displaying an error message naming the URL; network failures,
HTTP error statuses and parse failures all land in the same None outcome. -/
theorem C6_loader_single_failure_mode {α : Type} (url : String)
    (resp : FetchOutcome α) :
    (∃ d, load_geojson_from_github url resp = (some d, [])) ∨
    ((load_geojson_from_github url resp).1 = none ∧
      ("URL tentada: " ++ url) ∈ (load_geojson_from_github url resp).2) := by
  cases resp with
  | netError m =>
    right
    constructor <;> simp [load_geojson_from_github]
  | response status body =>
    by_cases hs : 400 ≤ status
    · right
      constructor <;> simp [load_geojson_from_github, hs]
    · cases body with
      | wellFormed d =>
        left
        exact ⟨d, by simp [load_geojson_from_github, hs]⟩
      | malformed m =>
        right
        constructor <;> simp [load_geojson_from_github, hs]

/-- A concrete well-formed points dataset for instantiating hypotheses. -/
def samplePoints : PointsGdf := ⟨4326, [some (Geom.pt 1 1)]⟩

/-- Witness for claim C4 at a concrete input: the bairros fetch raises a
network error while the points fetch succeeds; the cycle halts, the message
naming the bairros URL is guaranteed among the errors because that load
failed, and no page is rendered. -/
theorem C4_loader_failure_halts_witness :
    ((load_geojson_from_github BAIRROS_URL
        (FetchOutcome.netError "timeout" : FetchOutcome BairrosGdf)).1 = none ∨
      (load_geojson_from_github SB_URL
        (FetchOutcome.response 200 (Payload.wellFormed samplePoints))).1 = none) ∧
    ∃ errs,
      runCycle (fun _ p => p) ⟨"OpenStreetMap", true, true⟩
        (FetchOutcome.netError "timeout")
        (FetchOutcome.response 200 (Payload.wellFormed samplePoints)) =
          RenderOutcome.halted errs ∧
      ((load_geojson_from_github BAIRROS_URL
          (FetchOutcome.netError "timeout" : FetchOutcome BairrosGdf)).1 = none →
        ("URL tentada: " ++ BAIRROS_URL) ∈ errs) ∧
      ((load_geojson_from_github SB_URL
          (FetchOutcome.response 200 (Payload.wellFormed samplePoints))).1 = none →
        ("URL tentada: " ++ SB_URL) ∈ errs) ∧
      ∀ page,
        runCycle (fun _ p => p) ⟨"OpenStreetMap", true, true⟩
          (FetchOutcome.netError "timeout")
          (FetchOutcome.response 200 (Payload.wellFormed samplePoints)) ≠
            RenderOutcome.rendered page :=
  ⟨Or.inl rfl,
    C4_loader_failure_halts (fun _ p => p) ⟨"OpenStreetMap", true, true⟩
      (FetchOutcome.netError "timeout")
      (FetchOutcome.response 200 (Payload.wellFormed samplePoints))
      (Or.inl rfl)⟩

/-- A plain cell serializes to itself. -/
theorem csvField_of_plain (s : String) (h : needsQuoting s = false) :
    csvField s = s := by
  simp [csvField, h]

/-- Claim C5: for every list of polygon name/count pairs whose names need no
CSV quoting, the export encoder returns exactly the UTF-8 bytes of one header
row NOME,sistemas_bancarios followed by one row per polygon in input order
with name and count serialized unchanged. -/
theorem C5_convert_df_matches_spec (rows : List (String × Nat))
    (h : ∀ r ∈ rows, needsQuoting r.1 = false) :
    convert_df rows = specCsvBytes rows := by
  unfold convert_df specCsvBytes to_csv
  rw [List.map_map]
  have hhdr : csvLine [Cell.str "NOME", Cell.str "sistemas_bancarios"] ++ "\n" =
      "NOME,sistemas_bancarios\n" := by decide
  rw [hhdr]
  have hmap : rows.map
        ((fun row => csvLine row ++ "\n") ∘ fun r => [Cell.str r.1, Cell.num r.2]) =
      rows.map (fun r => r.1 ++ "," ++ toString r.2 ++ "\n") := by
    apply List.map_congr_left
    intro r hr
    simp only [Function.comp_apply, csvLine, Cell.out,
      csvField_of_plain r.1 (h r hr)]
  rw [hmap]

/-- Witness for claim C5 at the concrete input of the spec: polygons named
Centro and Batel with counts 5 and 0. -/
theorem C5_convert_df_matches_spec_witness :
    (∀ r ∈ ([("Centro", 5), ("Batel", 0)] : List (String × Nat)),
        needsQuoting r.1 = false) ∧
    convert_df [("Centro", 5), ("Batel", 0)] =
      specCsvBytes [("Centro", 5), ("Batel", 0)] :=
  ⟨by decide, C5_convert_df_matches_spec [("Centro", 5), ("Batel", 0)] (by decide)⟩

/-- Folding the minimum over a constant list starting from the constant gives
the constant. -/
theorem foldl_min_const (c : Nat) (xs : List Nat) (hxs : ∀ y ∈ xs, y = c) :
    xs.foldl Nat.min c = c := by
  induction xs with
  | nil => rfl
  | cons x xs ih =>
    have hx : x = c := hxs x (by simp)
    have : Nat.min c x = c := by simp [hx]
    simpa [List.foldl, this] using ih fun y hy => hxs y (by simp [hy])

/-- Folding the maximum over a constant list starting from the constant gives
the constant. -/
theorem foldl_max_const (c : Nat) (xs : List Nat) (hxs : ∀ y ∈ xs, y = c) :
    xs.foldl Nat.max c = c := by
  induction xs with
  | nil => rfl
  | cons x xs ih =>
    have hx : x = c := hxs x (by simp)
    have : Nat.max c x = c := by simp [hx]
    simpa [List.foldl, this] using ih fun y hy => hxs y (by simp [hy])

/-- The series minimum of a non-empty constant list is the constant. -/
theorem seriesMinNat_const (l : List Nat) (c : Nat) (hne : l ≠ [])
    (h : ∀ y ∈ l, y = c) : seriesMinNat l = c := by
  cases l with
  | nil => exact absurd rfl hne
  | cons x xs =>
    have hx : x = c := h x (by simp)
    subst hx
    exact foldl_min_const x xs fun y hy => h y (by simp [hy])

/-- The series maximum of a non-empty constant list is the constant. -/
theorem seriesMaxNat_const (l : List Nat) (c : Nat) (hne : l ≠ [])
    (h : ∀ y ∈ l, y = c) : seriesMaxNat l = c := by
  cases l with
  | nil => exact absurd rfl hne
  | cons x xs =>
    have hx : x = c := h x (by simp)
    subst hx
    exact foldl_max_const x xs fun y hy => h y (by simp [hy])

/-- Claim C7: when every polygon of a non-empty aggregation result carries
the same count — so the observed minimum equals the maximum — the style
function gives every polygon the same well-defined fill color, the first
color of the scale, and no error and no division by zero occurs (the color
lookup returns a value, not the none that models a raised exception). -/
theorem C7_degenerate_colormap (agg : List AggRow) (c : Nat) (hne : agg ≠ [])
    (hall : ∀ r ∈ agg, r.sistemas_bancarios = c) :
    ∀ r ∈ agg,
      (style_function
          (appColormap
            ((seriesMinNat (agg.map fun t => t.sistemas_bancarios) : Nat) : ℚ)
            ((seriesMaxNat (agg.map fun t => t.sistemas_bancarios) : Nat) : ℚ))
          r).fillColor = some (hexColor 254 249 239) := by
  have hmapne : (agg.map fun t => t.sistemas_bancarios) ≠ [] := by
    simpa using hne
  have hmapc : ∀ y ∈ agg.map fun t => t.sistemas_bancarios, y = c := by
    intro y hy
    rcases List.mem_map.mp hy with ⟨r, hr, rfl⟩
    exact hall r hr
  rw [seriesMinNat_const _ c hmapne hmapc, seriesMaxNat_const _ c hmapne hmapc]
  intro r hr
  have hrc : r.sistemas_bancarios = c := hall r hr
  show rgba_floats_tuple (appColormap (c : ℚ) (c : ℚ))
      ((r.sistemas_bancarios : Nat) : ℚ) = some (hexColor 254 249 239)
  rw [hrc]
  simp [appColormap, LinearColormap.make, rgba_floats_tuple, List.range_succ]

/-- A concrete aggregated row for the C7 witness. -/
def sampleRow1 : AggRow :=
  { nome := "Centro", geometry := ⟨0, 0, 2, 2⟩, attrs := [],
    sistemas_bancarios := 2 }

/-- A second concrete aggregated row for the C7 witness. -/
def sampleRow2 : AggRow :=
  { nome := "Batel", geometry := ⟨3, 3, 5, 5⟩, attrs := [],
    sistemas_bancarios := 2 }

/-- Witness for claim C7 at a concrete input: two polygons both counting 2
both receive the first scale color. -/
theorem C7_degenerate_colormap_witness :
    (([sampleRow1, sampleRow2] : List AggRow) ≠ [] ∧
      ∀ r ∈ ([sampleRow1, sampleRow2] : List AggRow),
        r.sistemas_bancarios = 2) ∧
    ∀ r ∈ ([sampleRow1, sampleRow2] : List AggRow),
      (style_function
          (appColormap
            ((seriesMinNat (([sampleRow1, sampleRow2] : List AggRow).map
                fun t => t.sistemas_bancarios) : Nat) : ℚ)
            ((seriesMaxNat (([sampleRow1, sampleRow2] : List AggRow).map
                fun t => t.sistemas_bancarios) : Nat) : ℚ))
          r).fillColor = some (hexColor 254 249 239) :=
  ⟨⟨by decide, by decide⟩,
    C7_degenerate_colormap [sampleRow1, sampleRow2] 2 (by decide) (by decide)⟩

/-- Claim C8: assuming the external reprojection function lands every
coordinate inside the valid longitude/latitude bounds — the documented
contract of a transformation into EPSG 4326 — the processing step leaves
both collections in EPSG 4326 with all coordinates in bounds, the two
collections share the same reference system, and the spatial aggregation is
computed from exactly those two normalized collections. -/
theorem C8_normalizer_invariant (T : Nat → ℚ × ℚ → ℚ × ℚ)
    (hT : ∀ c p, inLonLatBounds (T c p)) (b : BairrosGdf) (s : PointsGdf) :
    (processData T b s).bairros.crs = 4326 ∧
    (processData T b s).df_sb.crs = 4326 ∧
    (processData T b s).bairros.crs = (processData T b s).df_sb.crs ∧
    (∀ p ∈ (processData T b s).bairros.allCoords, inLonLatBounds p) ∧
    (∀ p ∈ (processData T b s).df_sb.allCoords, inLonLatBounds p) ∧
    (processData T b s).agg =
      aggregateFrame (processData T b s).bairros.rows
        (processData T b s).df_sb.geoms := by
  refine ⟨rfl, rfl, rfl, ?_, ?_, rfl⟩
  · intro p hp
    simp only [processData, BairrosGdf.to_crs, BairrosGdf.allCoords,
      Rect.corners, Rect.reproject, List.mem_flatMap, List.mem_map] at hp
    rcases hp with ⟨r, ⟨q, hq, rfl⟩, hmem⟩
    simp only [List.mem_cons, List.mem_singleton] at hmem
    rcases hmem with rfl | rfl | h
    · exact hT _ _
    · exact hT _ _
    · exact absurd h (by simp)
  · intro p hp
    simp only [processData, PointsGdf.to_crs, PointsGdf.allCoords,
      List.mem_flatMap, List.mem_map] at hp
    rcases hp with ⟨og, ⟨og0, hog0, rfl⟩, hmem⟩
    cases og0 with
    | none => simp at hmem
    | some g =>
      cases g with
      | pt x y =>
        simp [Geom.reproject, Geom.coords] at hmem
        subst hmem
        exact hT _ _
      | emptyPt => simp [Geom.reproject, Geom.coords] at hmem
      | line ax ay bx cy =>
        simp [Geom.reproject, Geom.coords] at hmem
        rcases hmem with rfl | rfl
        · exact hT _ _
        · exact hT _ _
      | emptyLine => simp [Geom.reproject, Geom.coords] at hmem

/-- A concrete bairros frame for the C8 witness, in a projected reference
system. -/
def sampleBairros : BairrosGdf :=
  ⟨31982, [{ nome := "Centro", geometry := ⟨0, 0, 2, 2⟩, attrs := [] }]⟩

/-- A concrete points frame for the C8 witness. -/
def samplePointsRaw : PointsGdf := ⟨31982, [some (Geom.pt 1 1), none]⟩

/-- Witness for claim C8 at a concrete input: a reprojection that clamps
every coordinate to the origin satisfies the bounds contract, and the
processed frames satisfy the invariant. -/
theorem C8_normalizer_invariant_witness :
    (∀ c p, inLonLatBounds ((fun (_ : Nat) (_ : ℚ × ℚ) => ((0 : ℚ), (0 : ℚ))) c p)) ∧
    ((processData (fun _ _ => (0, 0)) sampleBairros samplePointsRaw).bairros.crs = 4326 ∧
     (processData (fun _ _ => (0, 0)) sampleBairros samplePointsRaw).df_sb.crs = 4326 ∧
     (processData (fun _ _ => (0, 0)) sampleBairros samplePointsRaw).bairros.crs =
       (processData (fun _ _ => (0, 0)) sampleBairros samplePointsRaw).df_sb.crs ∧
     (∀ p ∈ (processData (fun _ _ => (0, 0)) sampleBairros samplePointsRaw).bairros.allCoords,
        inLonLatBounds p) ∧
     (∀ p ∈ (processData (fun _ _ => (0, 0)) sampleBairros samplePointsRaw).df_sb.allCoords,
        inLonLatBounds p) ∧
     (processData (fun _ _ => (0, 0)) sampleBairros samplePointsRaw).agg =
       aggregateFrame
         (processData (fun _ _ => (0, 0)) sampleBairros samplePointsRaw).bairros.rows
         (processData (fun _ _ => (0, 0)) sampleBairros samplePointsRaw).df_sb.geoms) :=
  have hT : ∀ (c : Nat) (p : ℚ × ℚ),
      inLonLatBounds ((fun (_ : Nat) (_ : ℚ × ℚ) => ((0 : ℚ), (0 : ℚ))) c p) :=
    fun _ _ => by constructor <;> norm_num
  ⟨hT, C8_normalizer_invariant (fun _ _ => (0, 0)) hT sampleBairros samplePointsRaw⟩

/-- Claim C9: the only change the aggregation makes to the polygon frame is
attaching the sistemas_bancarios column — projecting the count column away
returns the input rows exactly, so name, geometry and every other attribute
are unchanged — and the styling and export stages return the frame they
consume unchanged. -/
theorem C9_aggregator_frame_effect (b : List BairroRow)
    (pts : List (Option Geom)) :
    ((aggregateFrame b pts).map fun r => r.toBairroRow) = b ∧
    ((aggregateFrame b pts).map fun r => r.nome) = (b.map fun r => r.nome) ∧
    ((aggregateFrame b pts).map fun r => r.geometry) =
      (b.map fun r => r.geometry) ∧
    ((aggregateFrame b pts).map fun r => r.attrs) = (b.map fun r => r.attrs) ∧
    ∀ cmap, (renderStages cmap (aggregateFrame b pts)).2.2 =
      aggregateFrame b pts := by
  have hlen : b.length ≤
      (sistemas_bancarios_counts (b.map fun r => r.geometry) pts).length := by
    simp [sistemas_bancarios_counts, reindex_counts]
  have h1 : ((aggregateFrame b pts).map fun r => r.toBairroRow) = b := by
    unfold aggregateFrame
    rw [List.map_map]
    have hcomp : ((fun r : AggRow => r.toBairroRow) ∘
        fun rc : BairroRow × Nat =>
          ({ toBairroRow := rc.1, sistemas_bancarios := rc.2 } : AggRow)) =
        Prod.fst := rfl
    rw [hcomp, List.map_fst_zip _ _ hlen]
  refine ⟨h1, ?_, ?_, ?_, fun _ => rfl⟩
  · rw [show (fun r : AggRow => r.nome) =
        (fun t : BairroRow => t.nome) ∘ fun r : AggRow => r.toBairroRow
        from rfl, ← List.map_map, h1]
  · rw [show (fun r : AggRow => r.geometry) =
        (fun t : BairroRow => t.geometry) ∘ fun r : AggRow => r.toBairroRow
        from rfl, ← List.map_map, h1]
  · rw [show (fun r : AggRow => r.attrs) =
        (fun t : BairroRow => t.attrs) ∘ fun r : AggRow => r.toBairroRow
        from rfl, ← List.map_map, h1]

/-- Claim C10: the location list feeding the marker and heatmap layers is
exactly the latitude/longitude list of the non-null, simple-point, non-empty
geometries; every marker location comes from that list; and when the list is
empty the heatmap layer is omitted entirely. -/
theorem C10_location_filter (geoms : List (Option Geom)) (sh sc : Bool) :
    locations geoms = geoms.filterMap ptLocation ∧
    (∀ p ∈ clusterMarkers sc (locations geoms),
        p ∈ geoms.filterMap ptLocation) ∧
    (locations geoms = [] → heatMapLayer sh (locations geoms) = none) := by
  have hchar : locations geoms = geoms.filterMap ptLocation := by
    induction geoms with
    | nil => rfl
    | cons og tl ih =>
      cases og with
      | none =>
        simpa [locations, keepLocation, ptLocation, List.filter_cons,
          List.filterMap_cons] using ih
      | some g =>
        cases g <;>
          simpa [locations, keepLocation, ptLocation, locationYX,
            Geom.is_empty, Geom.geom_type, List.filter_cons,
            List.filterMap_cons] using ih
  refine ⟨hchar, ?_, ?_⟩
  · intro p hp
    cases sc with
    | false => simp [clusterMarkers] at hp
    | true =>
      simp only [clusterMarkers, if_pos] at hp
      exact hchar ▸ hp
  · intro h
    rw [h]
    simp [heatMapLayer]

/-- Witness for claim C10 at a concrete input: a null entry, an empty point
and a line yield an empty location list, and the heatmap layer is omitted
even though the heatmap checkbox is on. -/
theorem C10_location_filter_witness :
    locations [none, some Geom.emptyPt, some (Geom.line 0 0 1 1)] = [] ∧
    heatMapLayer true
      (locations [none, some Geom.emptyPt, some (Geom.line 0 0 1 1)]) = none :=
  ⟨by decide,
    (C10_location_filter [none, some Geom.emptyPt, some (Geom.line 0 0 1 1)]
      true true).2.2 (by decide)⟩

end App
